import Mathlib

/-!
Shallow embedding of the upload controller in `src/static/app.js`.

The controller is a single submit handler over four DOM surfaces
(status element, result section, result text element, plus the form).
We model the DOM surfaces the handler mutates as a `DomState` record,
the selected files as a list of opaque file references, and the
environment's behaviour for the single `fetch` call as a `FetchOutcome`
(the fetch promise rejects, the `response.json()` promise rejects, or a
parsed JSON payload is produced together with the HTTP status code).
The handler itself becomes a pure function from a pre-state, a file
list and a fetch outcome to a post-state plus the list of HTTP requests
issued and the list of values logged via `console.error`.
-/

namespace Geoint

/-- Parsed JSON values, as produced by `response.json()`.  Object fields
keep their order; `JSON.parse` yields objects with distinct keys, and
numbers are modelled as integers (no claim depends on non-integral
numeric values). -/
inductive Json where
  | null
  | bool (b : Bool)
  | num (n : Int)
  | str (s : String)
  | arr (items : List Json)
  | obj (fields : List (String × Json))

/-- JavaScript truthiness of a JSON value, as used by
`payload.error || 'The analysis failed.'` in app.js line 37. -/
def jsTruthy : Json → Bool
  | .null => false
  | .bool b => b
  | .num n => n != 0
  | .str s => s != ""
  | .arr _ => true
  | .obj _ => true

mutual
/-- JavaScript string conversion of an array element inside
`Array.prototype.join`: `null` renders as the empty string. -/
def jsElem : Json → String
  | .null => ""
  | .bool b => if b then "true" else "false"
  | .num n => toString n
  | .str s => s
  | .arr xs => jsJoin xs
  | .obj _ => "[object Object]"

/-- JavaScript `Array.prototype.toString`, i.e. `join(",")`. -/
def jsJoin : List Json → String
  | [] => ""
  | [x] => jsElem x
  | x :: xs => jsElem x ++ "," ++ jsJoin xs
end

/-- JavaScript `String(v)` conversion, as applied by the `textContent`
setter when `setStatus` receives a non-string message. -/
def jsStringOf : Json → String
  | .null => "null"
  | .bool b => if b then "true" else "false"
  | .num n => toString n
  | .str s => s
  | .arr xs => jsJoin xs
  | .obj _ => "[object Object]"

def hexDigit (n : Nat) : Char :=
  if n < 10 then Char.ofNat (48 + n) else Char.ofNat (87 + n)

def hex4 (n : Nat) : String :=
  String.mk [hexDigit (n / 4096 % 16), hexDigit (n / 256 % 16),
             hexDigit (n / 16 % 16), hexDigit (n % 16)]

/-- Escaping of one character inside a JSON string literal, following
`JSON.stringify`. -/
def escapeJsonChar (c : Char) : String :=
  if c = '"' then "\\\""
  else if c = '\\' then "\\\\"
  else if c = '\x08' then "\\b"
  else if c = '\x09' then "\\t"
  else if c = '\x0a' then "\\n"
  else if c = '\x0c' then "\\f"
  else if c = '\x0d' then "\\r"
  else if c.toNat < 32 then "\\u" ++ hex4 c.toNat
  else String.singleton c

def jsonQuote (s : String) : String :=
  "\"" ++ String.join (s.data.map escapeJsonChar) ++ "\""

def spaces (n : Nat) : String :=
  String.mk (List.replicate n ' ')

mutual
/-- `JSON.stringify(v, null, 2)` at the given current indentation,
as used by `showResult` (app.js line 12). -/
def stringifyAt : Nat → Json → String
  | _, .null => "null"
  | _, .bool b => if b then "true" else "false"
  | _, .num n => toString n
  | _, .str s => jsonQuote s
  | _, .arr [] => "[]"
  | ind, .arr (x :: xs) =>
      "[\n" ++ stringifyItems (ind + 2) x xs ++ "\n" ++ spaces ind ++ "]"
  | _, .obj [] => "\x7b\x7d"
  | ind, .obj ((k, v) :: flds) =>
      "\x7b\n" ++ stringifyFields (ind + 2) k v flds ++ "\n" ++ spaces ind ++ "\x7d"
termination_by ind j => sizeOf j

def stringifyItems : Nat → Json → List Json → String
  | ind, x, [] => spaces ind ++ stringifyAt ind x
  | ind, x, y :: ys =>
      spaces ind ++ stringifyAt ind x ++ ",\n" ++ stringifyItems ind y ys
termination_by ind x xs => 1 + sizeOf x + sizeOf xs

def stringifyFields : Nat → String → Json → List (String × Json) → String
  | ind, k, v, [] => spaces ind ++ jsonQuote k ++ ": " ++ stringifyAt ind v
  | ind, k, v, (k2, v2) :: gs =>
      spaces ind ++ jsonQuote k ++ ": " ++ stringifyAt ind v ++ ",\n" ++
        stringifyFields ind k2 v2 gs
termination_by ind k v gs => 1 + sizeOf v + sizeOf gs
end

/-- `JSON.stringify(v, null, 2)`: pretty-printing with two-space
indentation. -/
def stringify (v : Json) : String := stringifyAt 0 v

/-- A selected file; the controller treats files opaquely, so only
identity matters. -/
abbrev FileRef := Nat

/-- The DOM surfaces the handler mutates: the status element's text and
class, and the result section's visibility together with the result
text element's content. -/
structure DomState where
  statusText : String
  statusClass : String
  resultHidden : Bool
  resultText : String
  deriving Repr, DecidableEq

/-- `setStatus` (app.js lines 6-9): sets the status text and, in the
same update, the class — `'status error'` when flagged as an error,
`'status'` otherwise. -/
def setStatus (st : DomState) (message : String) (isError : Bool) : DomState :=
  { st with
    statusText := message
    statusClass := if isError then "status error" else "status" }

/-- `showResult` (app.js lines 11-14): renders the payload pretty-printed
into the result text element and unhides the result section. -/
def showResult (st : DomState) (data : Json) : DomState :=
  { st with
    resultText := stringify data
    resultHidden := false }

/-- The HTTP request issued by `fetch('/analyze', ...)` (app.js lines
30-33): path, method, and the multipart form-data fields (name paired
with the appended file). -/
structure AnalyzeRequest where
  path : String
  httpMethod : String
  formFields : List (String × FileRef)
  deriving Repr, DecidableEq

/-- What the environment does for the single `fetch` call of a
submission: the fetch promise rejects (network failure), the response
arrives but `response.json()` rejects (malformed body), or a response
with the given status code arrives and its body parses to `payload`. -/
inductive FetchOutcome where
  | fetchThrow
  | jsonThrow (status : Nat)
  | jsonOk (status : Nat) (payload : Json)

/-- `Response.ok`: true exactly for status codes 200-299. -/
def responseOk (status : Nat) : Bool :=
  200 ≤ status && status < 300

/-- Values passed to `console.error`: the exceptions the try-block can
catch. -/
inductive JsError where
  | fetchFailed
  | parseFailed
  | nullFieldAccess
  deriving Repr, DecidableEq

/-- First-match association lookup over an object's fields. -/
def objLookup : List (String × Json) → String → Option Json
  | [], _ => none
  | (k, v) :: rest, key => if k = key then some v else objLookup rest key

/-- JavaScript member access `payload.error`: reading a property of
`null` throws a TypeError; objects yield the field when present;
every other value yields `undefined` (modelled as `none`). -/
def getMember : Json → String → Except JsError (Option Json)
  | .null, _ => .error .nullFieldAccess
  | .obj fields, key => .ok (objLookup fields key)
  | _, _ => .ok none

def noFileMessage : String := "Please choose a PNG or JPEG file to analyze."
def analyzingMessage : String := "Analyzing image…"
def failedMessage : String := "The analysis failed."
def unexpectedMessage : String := "Unexpected error while analyzing the image."
def completeMessage : String := "Analysis complete."

/-- Net effect of one run of the submit handler: the final DOM state,
the HTTP requests issued, and the values logged via `console.error`. -/
structure StepResult where
  dom : DomState
  requests : List AnalyzeRequest
  logged : List JsError
  deriving Repr, DecidableEq

/-- The submit handler (app.js lines 16-48).  `files` is the file
input's current selection; `outcome` is the environment's behaviour for
the `fetch` call (unused when no file is selected, since no fetch
happens).  Mirrors the source line by line:
no-file guard (19-22), form-data packaging (24-25), analyzing status and
hiding of the result section (26-27), the try-block around fetch and
JSON parsing (29-35), the non-ok branch with `payload.error ||` fallback
(36-40), the success branch (42-43), and the catch-block that logs and
sets the fixed fallback (44-47). -/
def handleSubmit (st : DomState) (files : List FileRef) (outcome : FetchOutcome) :
    StepResult :=
  match files with
  | [] => ⟨setStatus st noFileMessage true, [], []⟩
  | file :: _ =>
    let req : AnalyzeRequest := ⟨"/analyze", "POST", [("image", file)]⟩
    let stAnalyzing :=
      { setStatus st analyzingMessage false with resultHidden := true }
    match outcome with
    | .fetchThrow =>
        ⟨setStatus stAnalyzing unexpectedMessage true, [req], [.fetchFailed]⟩
    | .jsonThrow _ =>
        ⟨setStatus stAnalyzing unexpectedMessage true, [req], [.parseFailed]⟩
    | .jsonOk status payload =>
        if responseOk status then
          ⟨showResult (setStatus stAnalyzing completeMessage false) payload,
            [req], []⟩
        else
          match getMember payload "error" with
          | .error e =>
              ⟨setStatus stAnalyzing unexpectedMessage true, [req], [e]⟩
          | .ok fieldOpt =>
              let message :=
                match fieldOpt with
                | some v => if jsTruthy v then jsStringOf v else failedMessage
                | none => failedMessage
              ⟨setStatus stAnalyzing message true, [req], []⟩

/-- The spec's four-valued SubmissionState; the terminal state a single
submission reaches. -/
inductive SubmissionState where
  | Idle
  | Analyzing
  | Success
  | Error
  deriving Repr, DecidableEq

/-- The terminal SubmissionState of one submission, per the spec's state
machine: Error on no file, on a throw, and on a non-ok response;
Success on an ok response. -/
def stateOfSubmission (files : List FileRef) (outcome : FetchOutcome) :
    SubmissionState :=
  match files with
  | [] => .Error
  | _ :: _ =>
    match outcome with
    | .fetchThrow => .Error
    | .jsonThrow _ => .Error
    | .jsonOk status _ => if responseOk status then .Success else .Error

/-- The intermediate DOM state while in `Analyzing` (after app.js lines
26-27, before the awaits resolve). -/
def analyzingDom (st : DomState) : DomState :=
  { setStatus st analyzingMessage false with resultHidden := true }

/-- Whether a submission takes one of the three error paths: no file
selected, a thrown fetch/parse error, or a non-ok response (including a
non-ok response whose `payload.error` access throws). -/
def isErrorOutcome (files : List FileRef) (outcome : FetchOutcome) : Bool :=
  match files with
  | [] => true
  | _ :: _ =>
    match outcome with
    | .fetchThrow => true
    | .jsonThrow _ => true
    | .jsonOk status _ => !responseOk status

/-- Whether the fetch or the body parse throws (the scope of the spec's
transport-error clause). -/
def isThrowOutcome : FetchOutcome → Bool
  | .fetchThrow => true
  | .jsonThrow _ => true
  | .jsonOk _ _ => false

/-- The `console.error` log produced by a fetch/parse throw. -/
def throwCause : FetchOutcome → List JsError
  | .fetchThrow => [.fetchFailed]
  | .jsonThrow _ => [.parseFailed]
  | .jsonOk _ _ => []

/-- A page-load DOM state: the result section starts hidden (it carries
the `hidden` attribute until the first successful analysis). -/
def pageInit : DomState :=
  { statusText := ""
    statusClass := "status"
    resultHidden := true
    resultText := "" }

end Geoint

namespace Geoint

/-- C1 counterexample: after a successful submission makes the result
surface visible, a no-file submission reaches the `Error` state (the
spec's classification of the no-file transition) while the result
surface is still visible — so "the result surface is hidden whenever
SubmissionState is not Success" fails on this reachable state. -/
theorem error_state_with_visible_result_after_success :
    stateOfSubmission [] FetchOutcome.fetchThrow = SubmissionState.Error ∧
    (handleSubmit
        (handleSubmit pageInit [0]
          (FetchOutcome.jsonOk 200 (Json.obj [("region", Json.str "coastal-plain")]))).dom
        [] FetchOutcome.fetchThrow).dom.resultHidden = false ∧
    (handleSubmit
        (handleSubmit pageInit [0]
          (FetchOutcome.jsonOk 200 (Json.obj [("region", Json.str "coastal-plain")]))).dom
        [] FetchOutcome.fetchThrow).dom.statusText = noFileMessage := by
  refine ⟨rfl, rfl, rfl⟩

/-- C1 (amended): after a submission with a file selected, the result
surface is visible exactly when the submission succeeded; the
intermediate `Analyzing` state always has the surface hidden; but the
no-file `Error` transition leaves the surface's visibility unchanged,
so the surface can remain visible in `Error` after a prior success. -/
theorem result_hidden_matches_state (st : DomState) (f : FileRef)
    (fs : List FileRef) (outcome : FetchOutcome) :
    ((handleSubmit st (f :: fs) outcome).dom.resultHidden = false ↔
        stateOfSubmission (f :: fs) outcome = SubmissionState.Success) ∧
    (analyzingDom st).resultHidden = true ∧
    (∀ oc2 : FetchOutcome, (handleSubmit st [] oc2).dom.resultHidden = st.resultHidden) := by
  refine ⟨?_, rfl, fun oc2 => rfl⟩
  cases outcome with
  | fetchThrow => simp [handleSubmit, setStatus, stateOfSubmission]
  | jsonThrow s => simp [handleSubmit, setStatus, stateOfSubmission]
  | jsonOk s p =>
    cases h : responseOk s with
    | true => simp [handleSubmit, setStatus, showResult, stateOfSubmission, h]
    | false =>
      cases hg : getMember p "error" with
      | error e => simp [handleSubmit, setStatus, stateOfSubmission, h, hg]
      | ok fo => simp [handleSubmit, setStatus, stateOfSubmission, h, hg]

/-- C2: a submission with no file selected sets the fixed guidance
message, issues no HTTP request, and (when the surface was hidden, as on
page load) leaves the result surface hidden. -/
theorem noFile_submit_guidance_no_request (st : DomState)
    (outcome : FetchOutcome) (h : st.resultHidden = true) :
    (handleSubmit st [] outcome).dom.statusText = noFileMessage ∧
    (handleSubmit st [] outcome).requests = [] ∧
    (handleSubmit st [] outcome).dom.resultHidden = true := by
  exact ⟨rfl, rfl, h⟩

/-- C2 witness: the no-file behaviour evaluated from the page-load
state. -/
theorem noFile_submit_guidance_no_request_witness :
    pageInit.resultHidden = true ∧
    ((handleSubmit pageInit [] FetchOutcome.fetchThrow).dom.statusText = noFileMessage ∧
     (handleSubmit pageInit [] FetchOutcome.fetchThrow).requests = [] ∧
     (handleSubmit pageInit [] FetchOutcome.fetchThrow).dom.resultHidden = true) :=
  ⟨rfl, noFile_submit_guidance_no_request pageInit FetchOutcome.fetchThrow rfl⟩

/-- C3 counterexample: a non-ok response whose body has an `error` field
that is present but falsy (the empty string) shows the fixed fallback,
although the claim requires the fallback exactly when the field is
absent. -/
theorem falsy_error_field_shows_fallback :
    (handleSubmit pageInit [0]
        (FetchOutcome.jsonOk 400 (Json.obj [("error", Json.str "")]))).dom.statusText
      = failedMessage ∧
    objLookup [("error", Json.str "")] "error" = some (Json.str "") ∧
    failedMessage ≠ "" := by
  refine ⟨rfl, rfl, by decide⟩

/-- C3 (amended): for a non-ok response with a JSON object body, the
status text is the `error` field's value (converted to a string) when
that field is present with a truthy value, and the fixed fallback when
the field is absent or falsy; the result surface stays hidden and the
status is styled as an error. -/
theorem failure_response_message_and_hidden (st : DomState) (f : FileRef)
    (fs : List FileRef) (status : Nat) (fields : List (String × Json))
    (h : responseOk status = false) :
    (handleSubmit st (f :: fs)
        (FetchOutcome.jsonOk status (Json.obj fields))).dom.statusText
      = (match objLookup fields "error" with
         | some v => if jsTruthy v then jsStringOf v else failedMessage
         | none => failedMessage) ∧
    (handleSubmit st (f :: fs)
        (FetchOutcome.jsonOk status (Json.obj fields))).dom.resultHidden = true ∧
    (handleSubmit st (f :: fs)
        (FetchOutcome.jsonOk status (Json.obj fields))).dom.statusClass
      = "status error" := by
  simp [handleSubmit, setStatus, getMember, h]

/-- C3 witness: a 404 with body containing `error`: "unsupported format"
shows exactly that message. -/
theorem failure_response_message_and_hidden_witness :
    responseOk 404 = false ∧
    (handleSubmit pageInit [0]
        (FetchOutcome.jsonOk 404
          (Json.obj [("error", Json.str "unsupported format")]))).dom.statusText
      = "unsupported format" := by
  have h := failure_response_message_and_hidden pageInit 0 [] 404
      [("error", Json.str "unsupported format")] (by decide)
  exact ⟨by decide, h.1.trans rfl⟩

/-- C4: a 2xx response with a parsed body sets the fixed completion
message, renders the pretty-printed body, and unhides the result
surface (with non-error styling). -/
theorem success_response_renders (st : DomState) (f : FileRef)
    (fs : List FileRef) (status : Nat) (payload : Json)
    (h : responseOk status = true) :
    (handleSubmit st (f :: fs)
        (FetchOutcome.jsonOk status payload)).dom.statusText = completeMessage ∧
    (handleSubmit st (f :: fs)
        (FetchOutcome.jsonOk status payload)).dom.resultText = stringify payload ∧
    (handleSubmit st (f :: fs)
        (FetchOutcome.jsonOk status payload)).dom.resultHidden = false ∧
    (handleSubmit st (f :: fs)
        (FetchOutcome.jsonOk status payload)).dom.statusClass = "status" := by
  simp [handleSubmit, setStatus, showResult, h]

/-- C4 witness: a 200 response with an object body, with the rendered
text computed explicitly. -/
theorem success_response_renders_witness :
    responseOk 200 = true ∧
    (handleSubmit pageInit [7]
        (FetchOutcome.jsonOk 200
          (Json.obj [("region", Json.str "coastal-plain"),
                     ("confidence", Json.num 1)]))).dom.statusText = completeMessage ∧
    (handleSubmit pageInit [7]
        (FetchOutcome.jsonOk 200
          (Json.obj [("region", Json.str "coastal-plain"),
                     ("confidence", Json.num 1)]))).dom.resultHidden = false ∧
    (handleSubmit pageInit [7]
        (FetchOutcome.jsonOk 200
          (Json.obj [("region", Json.str "coastal-plain"),
                     ("confidence", Json.num 1)]))).dom.resultText
      = "\x7b\n  \"region\": \"coastal-plain\",\n  \"confidence\": 1\n\x7d" := by
  have h := success_response_renders pageInit 7 [] 200
      (Json.obj [("region", Json.str "coastal-plain"), ("confidence", Json.num 1)])
      (by decide)
  refine ⟨by decide, h.1, h.2.2.1, h.2.1.trans ?_⟩
  simp only [stringify, stringifyAt, stringifyFields]
  decide

/-- C5: when the fetch or the body parse throws, the handler sets the
fixed unexpected-error message with error styling, logs exactly the
underlying cause, and the result surface stays hidden. -/
theorem throw_sets_unexpected_and_logs (st : DomState) (f : FileRef)
    (fs : List FileRef) (outcome : FetchOutcome)
    (h : isThrowOutcome outcome = true) :
    (handleSubmit st (f :: fs) outcome).dom.statusText = unexpectedMessage ∧
    (handleSubmit st (f :: fs) outcome).dom.statusClass = "status error" ∧
    (handleSubmit st (f :: fs) outcome).dom.resultHidden = true ∧
    (handleSubmit st (f :: fs) outcome).logged = throwCause outcome ∧
    (handleSubmit st (f :: fs) outcome).logged ≠ [] := by
  cases outcome with
  | fetchThrow => simp [handleSubmit, setStatus, throwCause]
  | jsonThrow s => simp [handleSubmit, setStatus, throwCause]
  | jsonOk s p => simp [isThrowOutcome] at h

/-- C5 witness: a network failure from the page-load state. -/
theorem throw_sets_unexpected_and_logs_witness :
    isThrowOutcome FetchOutcome.fetchThrow = true ∧
    ((handleSubmit pageInit [3] FetchOutcome.fetchThrow).dom.statusText = unexpectedMessage ∧
     (handleSubmit pageInit [3] FetchOutcome.fetchThrow).dom.statusClass = "status error" ∧
     (handleSubmit pageInit [3] FetchOutcome.fetchThrow).dom.resultHidden = true ∧
     (handleSubmit pageInit [3] FetchOutcome.fetchThrow).logged = throwCause FetchOutcome.fetchThrow ∧
     (handleSubmit pageInit [3] FetchOutcome.fetchThrow).logged ≠ []) :=
  ⟨rfl, throw_sets_unexpected_and_logs pageInit 3 [] FetchOutcome.fetchThrow rfl⟩

/-- C6: every submission with a file selected issues exactly one
request: a POST to `/analyze` whose multipart body has the single field
`image` holding the first selected file — whatever the outcome. -/
theorem submit_issues_single_analyze_request (st : DomState) (f : FileRef)
    (fs : List FileRef) (outcome : FetchOutcome) :
    (handleSubmit st (f :: fs) outcome).requests =
      [{ path := "/analyze", httpMethod := "POST", formFields := [("image", f)] }] := by
  cases outcome with
  | fetchThrow => rfl
  | jsonThrow s => rfl
  | jsonOk s p =>
    cases h : responseOk s with
    | true => simp [handleSubmit, h]
    | false =>
      cases hg : getMember p "error" with
      | error e => simp [handleSubmit, h, hg]
      | ok fo => simp [handleSubmit, h, hg]

/-- C7: a response whose body fails to parse takes the catch branch even
when the status is non-2xx: the status text is the transport fallback,
not the remote-rejection fallback, and the parse error is logged. -/
theorem malformed_nonok_takes_transport_branch (st : DomState) (f : FileRef)
    (fs : List FileRef) (status : Nat) (h : responseOk status = false) :
    (handleSubmit st (f :: fs) (FetchOutcome.jsonThrow status)).dom.statusText
      = unexpectedMessage ∧
    unexpectedMessage ≠ failedMessage ∧
    (handleSubmit st (f :: fs) (FetchOutcome.jsonThrow status)).logged
      = [JsError.parseFailed] := by
  exact ⟨rfl, by decide, rfl⟩

/-- C7 witness: a 500 response with a malformed body. -/
theorem malformed_nonok_takes_transport_branch_witness :
    responseOk 500 = false ∧
    ((handleSubmit pageInit [2] (FetchOutcome.jsonThrow 500)).dom.statusText
        = unexpectedMessage ∧
     unexpectedMessage ≠ failedMessage ∧
     (handleSubmit pageInit [2] (FetchOutcome.jsonThrow 500)).logged
        = [JsError.parseFailed]) :=
  ⟨by decide, malformed_nonok_takes_transport_branch pageInit 2 [] 500 (by decide)⟩

/-- C8: running the same successful scenario twice in a row ends in the
same final DOM state (status text, status class, result visibility and
result text) both times, from any prior state — in particular after an
earlier Error run. -/
theorem repeated_success_same_final_state (st : DomState) (f : FileRef)
    (fs : List FileRef) (status : Nat) (payload : Json)
    (h : responseOk status = true) :
    (handleSubmit
        (handleSubmit st (f :: fs) (FetchOutcome.jsonOk status payload)).dom
        (f :: fs) (FetchOutcome.jsonOk status payload)).dom =
      (handleSubmit st (f :: fs) (FetchOutcome.jsonOk status payload)).dom := by
  simp [handleSubmit, setStatus, showResult, h]

/-- C8 witness: the repeated success scenario run after a prior
transport-error run. -/
theorem repeated_success_same_final_state_witness :
    responseOk 200 = true ∧
    (handleSubmit
        (handleSubmit (handleSubmit pageInit [5] FetchOutcome.fetchThrow).dom [5]
          (FetchOutcome.jsonOk 200 (Json.obj [("region", Json.str "coastal-plain")]))).dom
        [5] (FetchOutcome.jsonOk 200 (Json.obj [("region", Json.str "coastal-plain")]))).dom =
      (handleSubmit (handleSubmit pageInit [5] FetchOutcome.fetchThrow).dom [5]
        (FetchOutcome.jsonOk 200 (Json.obj [("region", Json.str "coastal-plain")]))).dom :=
  ⟨by decide,
    repeated_success_same_final_state
      (handleSubmit pageInit [5] FetchOutcome.fetchThrow).dom 5 [] 200
      (Json.obj [("region", Json.str "coastal-plain")]) (by decide)⟩

/-- C9: a non-ok response whose object body has an `error` field with a
falsy value shows the fixed fallback message, not the field's value,
and the result surface stays hidden. -/
theorem present_falsy_error_field_gives_fallback (st : DomState) (f : FileRef)
    (fs : List FileRef) (status : Nat) (fields : List (String × Json)) (v : Json)
    (h1 : responseOk status = false) (h2 : objLookup fields "error" = some v)
    (h3 : jsTruthy v = false) :
    (handleSubmit st (f :: fs)
        (FetchOutcome.jsonOk status (Json.obj fields))).dom.statusText
      = failedMessage ∧
    (handleSubmit st (f :: fs)
        (FetchOutcome.jsonOk status (Json.obj fields))).dom.resultHidden = true := by
  simp [handleSubmit, setStatus, getMember, h1, h2, h3]

/-- C9 witness: `error` present as the empty string on a 500. -/
theorem present_falsy_error_field_gives_fallback_witness :
    responseOk 500 = false ∧
    objLookup [("error", Json.str "")] "error" = some (Json.str "") ∧
    jsTruthy (Json.str "") = false ∧
    ((handleSubmit pageInit [0]
        (FetchOutcome.jsonOk 500 (Json.obj [("error", Json.str "")]))).dom.statusText
      = failedMessage ∧
     (handleSubmit pageInit [0]
        (FetchOutcome.jsonOk 500 (Json.obj [("error", Json.str "")]))).dom.resultHidden = true) :=
  ⟨by decide, rfl, by decide,
    present_falsy_error_field_gives_fallback pageInit 0 [] 500
      [("error", Json.str "")] (Json.str "") (by decide) rfl (by decide)⟩

/-- C10: the status class is `'status error'` exactly on the error
outcomes (no file, thrown fetch/parse error, non-ok response) and
`'status'` on the analyzing and success updates; and `setStatus`
updates text and class together, so they cannot disagree. -/
theorem status_class_tracks_error_outcomes (st : DomState)
    (files : List FileRef) (outcome : FetchOutcome) :
    ((handleSubmit st files outcome).dom.statusClass
        = if isErrorOutcome files outcome then "status error" else "status") ∧
    (analyzingDom st).statusClass = "status" ∧
    (∀ (st2 : DomState) (msg : String) (b : Bool),
      (setStatus st2 msg b).statusText = msg ∧
      (setStatus st2 msg b).statusClass = (if b then "status error" else "status")) := by
  refine ⟨?_, rfl, fun st2 msg b => ⟨rfl, rfl⟩⟩
  cases files with
  | nil => rfl
  | cons f fs =>
    cases outcome with
    | fetchThrow => rfl
    | jsonThrow s => rfl
    | jsonOk s p =>
      cases h : responseOk s with
      | true => simp [handleSubmit, setStatus, showResult, isErrorOutcome, h]
      | false =>
        cases hg : getMember p "error" with
        | error e => simp [handleSubmit, setStatus, isErrorOutcome, h, hg]
        | ok fo => simp [handleSubmit, setStatus, isErrorOutcome, h, hg]

end Geoint
